import Mathlib

/-!
Shallow embedding of the neuralgym GAN utilities
(`neuralgym/ops/gan_ops.py` and
`neuralgym/callbacks/identity_model_restorer.py`).

Tensors are embedded as functions out of finite index types; `tf.reduce_mean`
becomes the arithmetic mean over the index type.  Functions whose bodies use
only field operations are embedded over `ℚ` (exact, executable); functions
using `sqrt`/`exp`/`log` are embedded over `ℝ`.  Framework-managed persistent
state (the spectral-norm variable `u`) is made explicit by state passing.
-/

namespace NeuralGym

/-- `tf.reduce_mean` over a tensor embedded as a function on a finite index
type: the sum of the entries divided by their number. -/
def mean {n : ℕ} {α : Type} [DivisionRing α] (f : Fin n → α) : α :=
  (∑ i, f i) / (n : α)

/-- `tf.nn.relu`: pointwise `max x 0`. -/
def relu {α : Type} [LinearOrder α] [Zero α] (x : α) : α :=
  max x 0

/-- `gan_ls_loss(pos, neg, value)` from `gan_ops.py`: least-squares GAN loss.
`l2_pos = mean((pos - value)^2)`, `l2_neg = mean(neg^2)`,
`d_loss = .5*l2_pos + .5*l2_neg`, `g_loss = mean((neg - value)^2)`.
Returns `(g_loss, d_loss)`.  The `scalar_summary` calls in the source only
write log summaries and do not affect the returned values. -/
def gan_ls_loss {m n : ℕ} (pos : Fin m → ℚ) (neg : Fin n → ℚ) (value : ℚ) :
    ℚ × ℚ :=
  let l2_pos := mean (fun i => (pos i - value) ^ 2)
  let l2_neg := mean (fun i => (neg i) ^ 2)
  let d_loss := (1 / 2) * l2_pos + (1 / 2) * l2_neg
  let g_loss := mean (fun i => (neg i - value) ^ 2)
  (g_loss, d_loss)

/-- `gan_hinge_loss(pos, neg, value)` from `gan_ops.py`: hinge GAN loss.
`hinge_pos = mean(relu(1 - pos))`, `hinge_neg = mean(relu(1 + neg))`,
`d_loss = .5*hinge_pos + .5*hinge_neg`, `g_loss = -mean(neg)`.
Returns `(g_loss, d_loss)`.  The `value` parameter is accepted but, as in the
source, unused (the body uses the literal `1`). -/
def gan_hinge_loss {m n : ℕ} (pos : Fin m → ℚ) (neg : Fin n → ℚ)
    (value : ℚ) : ℚ × ℚ :=
  let hinge_pos := mean (fun i => relu (1 - pos i))
  let hinge_neg := mean (fun i => relu (1 + neg i))
  let d_loss := (1 / 2) * hinge_pos + (1 / 2) * hinge_neg
  let g_loss := - mean neg
  (g_loss, d_loss)

/-- `gan_wgan_loss(pos, neg)` from `gan_ops.py`: Wasserstein GAN loss.
`d_loss = mean(neg - pos)` (elementwise difference, so `pos` and `neg` share
an index type), `g_loss = -mean(neg)`.  Returns `(g_loss, d_loss)`. -/
def gan_wgan_loss {n : ℕ} (pos neg : Fin n → ℚ) : ℚ × ℚ :=
  let d_loss := mean (fun i => neg i - pos i)
  let g_loss := - mean neg
  (g_loss, d_loss)

/-- `tf.nn.sigmoid_cross_entropy_with_logits(logits=x, labels=z)`:
`max(x, 0) - x * z + log(1 + exp(-|x|))` (the numerically stable form the
framework documents and computes). -/
noncomputable def sigmoid_cross_entropy_with_logits (x z : ℝ) : ℝ :=
  max x 0 - x * z + Real.log (1 + Real.exp (-|x|))

/-- `gan_log_loss(pos, neg)` from `gan_ops.py`: sigmoid cross-entropy GAN
loss.  `g_loss = mean(sce(neg, 1))`,
`d_loss = .5*mean(sce(pos, 1)) + .5*mean(sce(neg, 0))` where `sce` is
`sigmoid_cross_entropy_with_logits` (labels `ones_like`/`zeros_like`).
Returns `(g_loss, d_loss)`.  The `pos_acc`/`neg_acc` sigmoid means in the
source feed only `scalar_summary` logging and do not affect the result. -/
noncomputable def gan_log_loss {m n : ℕ} (pos : Fin m → ℝ) (neg : Fin n → ℝ) :
    ℝ × ℝ :=
  let g_loss := mean (fun i => sigmoid_cross_entropy_with_logits (neg i) 1)
  let d_loss_pos := mean (fun i => sigmoid_cross_entropy_with_logits (pos i) 1)
  let d_loss_neg := mean (fun i => sigmoid_cross_entropy_with_logits (neg i) 0)
  (g_loss, (1 / 2) * d_loss_pos + (1 / 2) * d_loss_neg)

/-- `random_interpolates(x, y, alpha)` from `gan_ops.py`, for the case where
`alpha` is supplied (when `alpha is None` the source draws it from
`tf.random_uniform`; the claims concern the deterministic data path).
The input tensors are indexed by an arbitrary type `ι`; the equivalence `e`
is the row-major `tf.reshape(x, [batch, -1])` to batch-by-features form,
and its inverse is the final `tf.reshape(interpolates, shape)` back.
`alpha` has shape `[batch, 1]` and broadcasts across features. -/
def random_interpolates {ι : Type} {b f : ℕ} (e : ι ≃ Fin b × Fin f)
    (x y : ι → ℚ) (alpha : Fin b → ℚ) : ι → ℚ :=
  let xr := fun i j => x (e.symm (i, j))
  let yr := fun i j => y (e.symm (i, j))
  let interpolates := fun i j => xr i j + alpha i * (yr i j - xr i j)
  fun idx => interpolates (e idx).1 (e idx).2

/-- `gradients_penalty(x, y, mask, norm)` from `gan_ops.py`, embedded over the
gradient tensor: `tf.gradients(y, x)[0]` is framework autodifferentiation, so
the embedding takes the resulting 4-D gradient tensor (batch, height, width,
channels) as the argument `gradients`.
`slopes = sqrt(reduce_sum(square(gradients) * mask, axis=[1,2,3]))` (one value
per batch element), result `= mean(square(slopes - norm))`. -/
noncomputable def gradients_penalty {b h w c : ℕ}
    (gradients mask : Fin b → Fin h → Fin w → Fin c → ℝ) (norm : ℝ) : ℝ :=
  let slopes := fun i =>
    Real.sqrt (∑ j, ∑ k, ∑ l, (gradients i j k l) ^ 2 * mask i j k l)
  mean (fun i => (slopes i - norm) ^ 2)

/-- The inner `l2_norm(input_x, epsilon)` of `kernel_spectral_norm`:
`input_x / (reduce_sum(input_x ** 2) ** 0.5 + epsilon)`.  The exponent `0.5`
on the nonnegative sum of squares is its square root. -/
noncomputable def l2_norm {n : ℕ} (input_x : Fin n → ℝ) (epsilon : ℝ) :
    Fin n → ℝ :=
  fun i => input_x i / (Real.sqrt (∑ j, (input_x j) ^ 2) + epsilon)

/-- The `epsilon=1e-12` default of `l2_norm`. -/
noncomputable def l2_norm_epsilon : ℝ := 1 / 10 ^ 12

/-- The persistent framework-managed state visible to `kernel_spectral_norm`:
the kernel variable (a tensor over index type `ι`), the persisted power
iteration vector `u` (shape `[1, cols]`, created by `tf.get_variable`), and
all other persistent state of the graph, abstracted as `other : Ω`. -/
structure TFState (ι : Type) (cols : ℕ) (Ω : Type) where
  kernel : ι → ℝ
  u : Fin cols → ℝ
  other : Ω

/-- The reshape `w_mat = tf.reshape(kernel, [-1, w_shape[-1]])`: the
equivalence `e : ι ≃ Fin rows × Fin cols` is the row-major regrouping of the
kernel's index set with the last axis (of size `cols = w_shape[-1]`) kept. -/
def reshaped_w_mat {ι : Type} {rows cols : ℕ} (e : ι ≃ Fin rows × Fin cols)
    (kernel : ι → ℝ) : Fin rows → Fin cols → ℝ :=
  fun i j => kernel (e.symm (i, j))

/-- One power-iteration step exactly as the inner `power_iteration` of
`kernel_spectral_norm` performs it on the row vector `u` (shape `[1, cols]`):
`v_ = u @ w_matᵀ`, `v_hat = l2_norm(v_)`, `u_ = v_hat @ w_mat`,
`u_hat = l2_norm(u_)`; returns `(u_hat, v_hat)`. -/
noncomputable def power_iteration_step {rows cols : ℕ}
    (w_mat : Fin rows → Fin cols → ℝ) (u : Fin cols → ℝ) :
    (Fin cols → ℝ) × (Fin rows → ℝ) :=
  let v_ : Fin rows → ℝ := fun i => ∑ j, u j * w_mat i j
  let v_hat := l2_norm v_ l2_norm_epsilon
  let u_ : Fin cols → ℝ := fun j => ∑ i, v_hat i * w_mat i j
  let u_hat := l2_norm u_ l2_norm_epsilon
  (u_hat, v_hat)

/-- The Rayleigh-quotient estimate
`sigma = v_hat @ w_mat @ transpose(u_hat)` (a `1×1` matrix, read as a
scalar). -/
noncomputable def rayleigh_sigma {rows cols : ℕ}
    (w_mat : Fin rows → Fin cols → ℝ) (u_hat : Fin cols → ℝ)
    (v_hat : Fin rows → ℝ) : ℝ :=
  ∑ j, (∑ i, v_hat i * w_mat i j) * u_hat j

/-- `kernel_spectral_norm(kernel, iteration)` from `gan_ops.py`, with the
framework variable store made explicit: it reads the kernel and the persisted
`u` from the state `s`, and returns the normalized weight `w_norm` together
with the state after `u.assign(u_hat)` (the `tf.control_dependencies` block
forces that assignment to run whenever `w_norm` is computed).
The body follows the source: reshape the kernel to `w_mat`, call the inner
`power_iteration(u, iteration)` once (it performs a single step and returns
`ite + 1`, which is discarded), form `sigma`, divide `w_mat` by `sigma`, and
reshape back to the kernel's shape. -/
noncomputable def kernel_spectral_norm {ι : Type} {rows cols : ℕ} {Ω : Type}
    (e : ι ≃ Fin rows × Fin cols) (iteration : ℕ) (s : TFState ι cols Ω) :
    (ι → ℝ) × TFState ι cols Ω :=
  let w_mat := reshaped_w_mat e s.kernel
  let power_iteration :
      (Fin cols → ℝ) → ℕ → (Fin cols → ℝ) × (Fin rows → ℝ) × ℕ :=
    fun u ite =>
      let v_ : Fin rows → ℝ := fun i => ∑ j, u j * w_mat i j
      let v_hat := l2_norm v_ l2_norm_epsilon
      let u_ : Fin cols → ℝ := fun j => ∑ i, v_hat i * w_mat i j
      let u_hat := l2_norm u_ l2_norm_epsilon
      (u_hat, v_hat, ite + 1)
  let p := power_iteration s.u iteration
  let u_hat := p.1
  let v_hat := p.2.1
  let sigma := ∑ j, (∑ i, v_hat i * w_mat i j) * u_hat j
  let w_mat_div : Fin rows → Fin cols → ℝ := fun i j => w_mat i j / sigma
  let w_norm : ι → ℝ := fun idx => w_mat_div (e idx).1 (e idx).2
  (w_norm, { kernel := s.kernel, u := u_hat, other := s.other })

/-- Modelled from the spec: the `CallbackLoc` enum of `neuralgym.callbacks`
(its defining module is not under `src/`; `identity_model_restorer.py` imports
`CallbackLoc` and `OnceCallback` from it).  The spec names `train_start` as
the registration point; the other locations are the step and end events of a
training run. -/
inductive CallbackLoc : Type where
  | train_start : CallbackLoc
  | step_start : CallbackLoc
  | step_end : CallbackLoc
  | train_end : CallbackLoc
deriving DecidableEq

/-- `IdentityModelRestorer` from `identity_model_restorer.py`: a
`OnceCallback` holding the list of identity-model variables and the
checkpoint path.  `cb_loc` is the callback location set by
`super().__init__(CallbackLoc.train_start)`. -/
structure IdentityModelRestorer where
  cb_loc : CallbackLoc
  model_weights : List String
  tf_checkpoint_path : String

/-- The `__init__` of `IdentityModelRestorer`: stores the variable list and
checkpoint path and registers the callback at `CallbackLoc.train_start`. -/
def IdentityModelRestorer.init (model_weights : List String)
    (tf_checkpoint_path : String) : IdentityModelRestorer :=
  { cb_loc := CallbackLoc.train_start
    model_weights := model_weights
    tf_checkpoint_path := tf_checkpoint_path }

/-- A framework-native checkpoint: a list of variable names paired with their
saved values.  Values are abstracted as integers. -/
structure Checkpoint where
  vars : List (String × ℤ)

/-- The ways a checkpoint restore fails. -/
inductive RestoreError : Type where
  | missing_checkpoint : RestoreError
  | var_set_mismatch : RestoreError
deriving DecidableEq

/-- Modelled from the spec: `tf.train.Saver(var_list).restore(sess, path)`
(framework code, not under `src/`): reads a framework-native checkpoint file
given a path and a list of variable handles; fails if the path is missing or
the checkpoint's variable set does not match the given variables, and on
failure no variable is restored (the session is returned unchanged, paired
with the error).  On success every listed variable takes its checkpointed
value.  The filesystem is `fs`, the session variable store is a total map
from variable names to values. -/
def saver_restore (fs : String → Option Checkpoint) (var_list : List String)
    (path : String) (sess : String → ℤ) :
    (String → ℤ) × Option RestoreError :=
  match fs path with
  | none => (sess, some RestoreError.missing_checkpoint)
  | some ckpt =>
      if (ckpt.vars.map Prod.fst).toFinset = var_list.toFinset then
        ((fun name =>
            match ckpt.vars.lookup name with
            | some v => v
            | none => sess name), none)
      else (sess, some RestoreError.var_set_mismatch)

/-- `IdentityModelRestorer.run(sess)`:
`tf.train.Saver(self._model_weights).restore(sess, self._tf_checkpoint_path)`
— a restore with the stored variable list and stored checkpoint path (the
trailing `callback_log` call only logs). -/
def IdentityModelRestorer.run (r : IdentityModelRestorer)
    (fs : String → Option Checkpoint) (sess : String → ℤ) :
    (String → ℤ) × Option RestoreError :=
  saver_restore fs r.model_weights r.tf_checkpoint_path sess

/-- The events of a training run of `num_steps` steps after training has
started: `step_start, step_end` per step, then `train_end`.  Modelled from
the spec: the trainer dispatching callbacks is not under `src/`. -/
def step_locs : ℕ → List CallbackLoc
  | 0 => [CallbackLoc.train_end]
  | n + 1 => CallbackLoc.step_start :: CallbackLoc.step_end :: step_locs n

/-- The full event sequence of a training run: one `train_start`, then the
steps and `train_end`. -/
def train_run_locs (num_steps : ℕ) : List CallbackLoc :=
  CallbackLoc.train_start :: step_locs num_steps

/-- Modelled from the spec: the trainer's handling of a `OnceCallback`
(its defining module is not under `src/`; the spec calls the restore a
one-shot operation).  Given the callback's location, the run's event
sequence, and whether the callback has already fired, it returns, per event,
whether the callback's action executes there: it executes at an event of its
location only if it has not fired yet, and firing is recorded. -/
def once_fire_trace (cb_loc : CallbackLoc) :
    List CallbackLoc → Bool → List Bool
  | [], _ => []
  | loc :: rest, fired =>
      let fire := (decide (loc = cb_loc)) && (! fired)
      fire :: once_fire_trace cb_loc rest (fired || fire)

/-- Result of a weights-file fetch: the local path, the cache afterwards, and
whether a download happened on this call. -/
structure FetchResult where
  path : String
  cache : List (String × ℕ)
  downloaded : Bool

/-- The ways a weights-file fetch fails. -/
inductive DownloadError : Type where
  | network_error : DownloadError
  | cache_write_error : DownloadError
deriving DecidableEq

/-- A download attempt from a URL either yields the file's bytes (abstracted
as `ℕ`) or a network error. -/
inductive NetResult : Type where
  | ok : ℕ → NetResult
  | network_error : NetResult

/-- `RESNET50_WEIGHTS_PATH_NO_TOP` from `gan_ops.py`: the fixed URL of the
ResNet50 VGGFace weights file. -/
def RESNET50_WEIGHTS_PATH_NO_TOP : String :=
  "https://github.com/rcmalli/keras-vggface/releases/download/v2.0/rcmalli_vggface_tf_notop_resnet50.h5"

/-- `VGGFACE_DIR` from `gan_ops.py`: the local cache directory. -/
def VGGFACE_DIR : String := "models/vggface"

/-- Modelled from the spec: `keras.utils.data_utils.get_file(fname, origin,
cache_subdir)` (framework code, not under `src/`): downloads a fixed weights
file by URL into a local cache directory on first use — if the file is
already cached it is reused with no download, otherwise it is fetched from
`origin` and written to the cache — and fails on network error or
cache-write failure, leaving the cache without the file.  `net` gives the
network's response per URL and `write_ok` whether the cache directory is
writable. -/
def get_file (fname origin cache_subdir : String)
    (net : String → NetResult) (write_ok : Bool)
    (cache : List (String × ℕ)) : Except DownloadError FetchResult :=
  let path := cache_subdir ++ "/" ++ fname
  match cache.lookup path with
  | some _ => Except.ok { path := path, cache := cache, downloaded := false }
  | none =>
      match net origin with
      | NetResult.network_error => Except.error DownloadError.network_error
      | NetResult.ok data =>
          if write_ok then
            Except.ok
              { path := path, cache := (path, data) :: cache,
                downloaded := true }
          else Except.error DownloadError.cache_write_error

/-- The weights fetch performed inside `gan_identity_loss` in `gan_ops.py`:
`get_file('rcmalli_vggface_tf_notop_resnet50.h5',
RESNET50_WEIGHTS_PATH_NO_TOP, cache_subdir=VGGFACE_DIR)`. -/
def gan_identity_loss_fetch (net : String → NetResult) (write_ok : Bool)
    (cache : List (String × ℕ)) : Except DownloadError FetchResult :=
  get_file "rcmalli_vggface_tf_notop_resnet50.h5" RESNET50_WEIGHTS_PATH_NO_TOP
    VGGFACE_DIR net write_ok cache

/-- The local cache path of the VGGFace weights file. -/
def vggface_weights_path : String :=
  VGGFACE_DIR ++ "/" ++ "rcmalli_vggface_tf_notop_resnet50.h5"

/-! Helper lemmas shared by the claim theorems. -/

/-- The mean of a pointwise-nonnegative tensor is nonnegative. -/
theorem mean_nonneg {k : ℕ} (f : Fin k → ℚ) (h : ∀ i, 0 ≤ f i) :
    0 ≤ mean f := by
  unfold mean
  exact div_nonneg (Finset.sum_nonneg fun i _ => h i) (Nat.cast_nonneg k)

/-! Theorems for the claims. -/

/-- Claim C10: for tensors `x` and `y` of equal shape (index type `ι`,
reshaped to batch-by-features by `e`), `random_interpolates` returns a tensor
of the same shape equal elementwise to `x + alpha*(y - x)` (with `alpha`
broadcast per batch element); in particular it returns `x` when `alpha` is
the zero tensor and `y` when `alpha` is the all-ones tensor. -/
theorem random_interpolates_affine {ι : Type} {b f : ℕ}
    (e : ι ≃ Fin b × Fin f) (x y : ι → ℚ) (alpha : Fin b → ℚ) :
    (random_interpolates e x y alpha
        = fun idx => x idx + alpha (e idx).1 * (y idx - x idx)) ∧
    (alpha = (fun _ => 0) → random_interpolates e x y alpha = x) ∧
    (alpha = (fun _ => 1) → random_interpolates e x y alpha = y) := by
  refine ⟨?_, ?_, ?_⟩
  · funext idx
    simp [random_interpolates]
  · intro h
    subst h
    funext idx
    simp [random_interpolates]
  · intro h
    subst h
    funext idx
    simp only [random_interpolates, Prod.mk.eta, Equiv.symm_apply_apply]
    ring

/-- Claim C10 witness: at a concrete instance, the zero-`alpha` case returns
the first tensor. -/
theorem random_interpolates_affine_witness :
    random_interpolates (Equiv.refl (Fin 1 × Fin 1)) (fun _ => 3) (fun _ => 5)
      (fun _ => 0) = (fun _ => 3) :=
  (random_interpolates_affine (Equiv.refl (Fin 1 × Fin 1)) (fun _ => 3)
    (fun _ => 5) (fun _ => 0)).2.1 rfl

/-- Claim C3 counterexample: the generator loss of `gan_hinge_loss` is not
non-negative for all finite scores: at `pos = [1]`, `neg = [1]` it equals
`-mean(neg) = -1 < 0`. -/
theorem gan_hinge_g_loss_negative :
    (gan_hinge_loss (fun _ : Fin 1 => 1) (fun _ : Fin 1 => 1) 1).1 < 0 := by
  norm_num [gan_hinge_loss, mean]

/-- Claim C3 amended: for all score tensors, the discriminator loss returned
by `gan_hinge_loss` is non-negative (the generator loss `-mean(neg)` is not
non-negative in general). -/
theorem gan_hinge_d_loss_nonneg {m n : ℕ} (pos : Fin m → ℚ) (neg : Fin n → ℚ)
    (value : ℚ) :
    0 ≤ (gan_hinge_loss pos neg value).2 := by
  have hp : 0 ≤ mean fun i => relu (1 - pos i) :=
    mean_nonneg _ fun i => le_max_right _ 0
  have hn : 0 ≤ mean fun i => relu (1 + neg i) :=
    mean_nonneg _ fun i => le_max_right _ 0
  show 0 ≤ (1 / 2) * (mean fun i => relu (1 - pos i))
      + (1 / 2) * (mean fun i => relu (1 + neg i))
  positivity

/-- Claim C4: each of the four loss functions is a pure, deterministic
reduction of its score tensors: the embedding gives each the type of a
function of `pos`, `neg` (and `value` where present) alone — no state
argument exists — and equal inputs yield equal `(g_loss, d_loss)` pairs. -/
theorem gan_losses_pure_deterministic {m n : ℕ}
    (pos pos' : Fin m → ℝ) (neg neg' : Fin n → ℝ)
    (posq posq' : Fin m → ℚ) (negq negq' : Fin n → ℚ)
    (wpos wpos' : Fin n → ℚ) (value value' : ℚ)
    (h1 : pos = pos') (h2 : neg = neg') (h3 : posq = posq')
    (h4 : negq = negq') (h5 : wpos = wpos') (h6 : value = value') :
    gan_log_loss pos neg = gan_log_loss pos' neg' ∧
    gan_ls_loss posq negq value = gan_ls_loss posq' negq' value' ∧
    gan_hinge_loss posq negq value = gan_hinge_loss posq' negq' value' ∧
    gan_wgan_loss wpos negq = gan_wgan_loss wpos' negq' := by
  subst h1
  subst h2
  subst h3
  subst h4
  subst h5
  subst h6
  exact ⟨rfl, rfl, rfl, rfl⟩

/-- Claim C4 witness: the purity theorem applied at concrete score
tensors. -/
theorem gan_losses_pure_deterministic_witness :
    gan_log_loss (fun _ : Fin 1 => (1 : ℝ)) (fun _ : Fin 1 => (2 : ℝ))
        = gan_log_loss (fun _ : Fin 1 => (1 : ℝ)) (fun _ : Fin 1 => (2 : ℝ)) ∧
    gan_ls_loss (fun _ : Fin 1 => (1 : ℚ)) (fun _ : Fin 1 => (2 : ℚ)) 1
        = gan_ls_loss (fun _ : Fin 1 => (1 : ℚ)) (fun _ : Fin 1 => (2 : ℚ)) 1 ∧
    gan_hinge_loss (fun _ : Fin 1 => (1 : ℚ)) (fun _ : Fin 1 => (2 : ℚ)) 1
        = gan_hinge_loss (fun _ : Fin 1 => (1 : ℚ)) (fun _ : Fin 1 => (2 : ℚ)) 1 ∧
    gan_wgan_loss (fun _ : Fin 1 => (3 : ℚ)) (fun _ : Fin 1 => (2 : ℚ))
        = gan_wgan_loss (fun _ : Fin 1 => (3 : ℚ)) (fun _ : Fin 1 => (2 : ℚ)) :=
  gan_losses_pure_deterministic (fun _ => (1 : ℝ)) (fun _ => (1 : ℝ))
    (fun _ => (2 : ℝ)) (fun _ => (2 : ℝ)) (fun _ => (1 : ℚ)) (fun _ => (1 : ℚ))
    (fun _ => (2 : ℚ)) (fun _ => (2 : ℚ)) (fun _ => (3 : ℚ)) (fun _ => (3 : ℚ))
    1 1 rfl rfl rfl rfl rfl rfl

/-- Claim C2: if the masked gradient norm per batch element (the slope
`sqrt(reduce_sum(square(gradients) * mask))`) equals `norm` for every batch
element, then `gradients_penalty` returns exactly zero. -/
theorem gradients_penalty_zero_of_slopes_eq_norm {b h w c : ℕ}
    (gradients mask : Fin b → Fin h → Fin w → Fin c → ℝ) (norm : ℝ)
    (hs : ∀ i, Real.sqrt
        (∑ j, ∑ k, ∑ l, (gradients i j k l) ^ 2 * mask i j k l) = norm) :
    gradients_penalty gradients mask norm = 0 := by
  simp only [gradients_penalty, mean]
  have h0 : ∀ i : Fin b, (Real.sqrt
      (∑ j, ∑ k, ∑ l, (gradients i j k l) ^ 2 * mask i j k l) - norm) ^ 2
        = 0 := by
    intro i
    rw [hs i]
    ring
  rw [Finset.sum_eq_zero fun i _ => h0 i, zero_div]

/-- Claim C2 witness: a concrete all-ones 1×1×1×1 gradient with all-ones
mask has slope `sqrt 1 = 1 = norm`, and the penalty is zero. -/
theorem gradients_penalty_zero_witness :
    gradients_penalty
      (fun (_ : Fin 1) (_ : Fin 1) (_ : Fin 1) (_ : Fin 1) => (1 : ℝ))
      (fun (_ : Fin 1) (_ : Fin 1) (_ : Fin 1) (_ : Fin 1) => (1 : ℝ)) 1
      = 0 := by
  apply gradients_penalty_zero_of_slopes_eq_norm
  intro i
  simp [Fin.sum_univ_one]

/-- Claim C1: each call of `kernel_spectral_norm` performs exactly one
power-iteration step: the returned tensor is the reshape-back of
`w_mat / sigma`, where `(u_hat, v_hat)` is the single normalize-and-propagate
step of the persisted `u` through `w_mat` and its transpose, and
`sigma = v_hat * w_mat * u_hatᵀ` is the Rayleigh-quotient estimate; each
entry of the result is the corresponding original kernel entry divided by
`sigma`; and the result is independent of the `iteration` argument (exactly
one step is performed per call). -/
theorem kernel_spectral_norm_one_step {ι : Type} {rows cols : ℕ} {Ω : Type}
    (e : ι ≃ Fin rows × Fin cols) (iteration : ℕ) (s : TFState ι cols Ω) :
    ((kernel_spectral_norm e iteration s).1 = fun idx =>
      reshaped_w_mat e s.kernel (e idx).1 (e idx).2
        / rayleigh_sigma (reshaped_w_mat e s.kernel)
            (power_iteration_step (reshaped_w_mat e s.kernel) s.u).1
            (power_iteration_step (reshaped_w_mat e s.kernel) s.u).2) ∧
    (∀ idx, (kernel_spectral_norm e iteration s).1 idx =
      s.kernel idx
        / rayleigh_sigma (reshaped_w_mat e s.kernel)
            (power_iteration_step (reshaped_w_mat e s.kernel) s.u).1
            (power_iteration_step (reshaped_w_mat e s.kernel) s.u).2) ∧
    (∀ iteration', kernel_spectral_norm e iteration s
        = kernel_spectral_norm e iteration' s) := by
  refine ⟨rfl, ?_, fun _ => rfl⟩
  intro idx
  show reshaped_w_mat e s.kernel (e idx).1 (e idx).2 / _ = _
  rw [reshaped_w_mat, Prod.mk.eta, Equiv.symm_apply_apply]
  rfl

/-- Claim C5: a call of `kernel_spectral_norm` mutates exactly one piece of
persistent state: the persisted `u` becomes the new estimate `u_hat` of the
single power-iteration step, while the kernel variable and all other
persistent state are unchanged; the normalized weight is returned as a fresh
tensor (the value component of the result), not written into the state. -/
theorem kernel_spectral_norm_frame {ι : Type} {rows cols : ℕ} {Ω : Type}
    (e : ι ≃ Fin rows × Fin cols) (iteration : ℕ) (s : TFState ι cols Ω) :
    ((kernel_spectral_norm e iteration s).2.u
        = (power_iteration_step (reshaped_w_mat e s.kernel) s.u).1) ∧
    ((kernel_spectral_norm e iteration s).2.kernel = s.kernel) ∧
    ((kernel_spectral_norm e iteration s).2.other = s.other) :=
  ⟨rfl, rfl, rfl⟩

/-- Claim C7: `IdentityModelRestorer.run` performs a checkpoint restore with
the stored path and stored variable list; it reports a failure if the
checkpoint path is missing or the checkpoint's variable set does not match
the given variables; and on any failure no variable is restored (the session
is unchanged). -/
theorem identity_model_restorer_run_error_handling
    (r : IdentityModelRestorer) (fs : String → Option Checkpoint)
    (sess : String → ℤ) :
    (r.run fs sess
        = saver_restore fs r.model_weights r.tf_checkpoint_path sess) ∧
    (fs r.tf_checkpoint_path = none →
      r.run fs sess = (sess, some RestoreError.missing_checkpoint)) ∧
    (∀ ckpt, fs r.tf_checkpoint_path = some ckpt →
      (ckpt.vars.map Prod.fst).toFinset ≠ r.model_weights.toFinset →
      r.run fs sess = (sess, some RestoreError.var_set_mismatch)) ∧
    (∀ err, (r.run fs sess).2 = some err → (r.run fs sess).1 = sess) := by
  refine ⟨rfl, ?_, ?_, ?_⟩
  · intro hfs
    simp [IdentityModelRestorer.run, saver_restore, hfs]
  · intro ckpt hfs hne
    simp [IdentityModelRestorer.run, saver_restore, hfs, hne]
  · intro err
    simp only [IdentityModelRestorer.run, saver_restore]
    cases hfs : fs r.tf_checkpoint_path with
    | none => intro _; rfl
    | some ckpt =>
        by_cases hset :
            (ckpt.vars.map Prod.fst).toFinset = r.model_weights.toFinset
        · simp [hset]
        · simp [hset]

/-- Claim C7 witness: with an empty filesystem the restore of a concrete
restorer fails with a missing checkpoint and leaves the session unchanged. -/
theorem identity_model_restorer_run_witness :
    (IdentityModelRestorer.init ["w"] "ckpt").run (fun _ => none) (fun _ => 0)
      = ((fun _ => 0), some RestoreError.missing_checkpoint) :=
  (identity_model_restorer_run_error_handling
    (IdentityModelRestorer.init ["w"] "ckpt") (fun _ => none)
    (fun _ => 0)).2.1 rfl

/-- Claim C8: the weights fetch of `gan_identity_loss` uses the fixed VGGFace
URL and the `models/vggface` cache directory; it downloads only on first use
(when the file is not cached, a successful call downloads and caches it;
when it is cached, the call reuses it with no download); and it fails,
propagating the error, on network error or cache-write failure. -/
theorem gan_identity_loss_download_first_use
    (net : String → NetResult) (cache : List (String × ℕ)) :
    (∀ data, cache.lookup vggface_weights_path = none →
      net RESNET50_WEIGHTS_PATH_NO_TOP = NetResult.ok data →
      gan_identity_loss_fetch net true cache = Except.ok
        { path := vggface_weights_path
          cache := (vggface_weights_path, data) :: cache
          downloaded := true }) ∧
    (∀ data write_ok, cache.lookup vggface_weights_path = some data →
      gan_identity_loss_fetch net write_ok cache = Except.ok
        { path := vggface_weights_path, cache := cache,
          downloaded := false }) ∧
    (∀ write_ok, cache.lookup vggface_weights_path = none →
      net RESNET50_WEIGHTS_PATH_NO_TOP = NetResult.network_error →
      gan_identity_loss_fetch net write_ok cache
        = Except.error DownloadError.network_error) ∧
    (∀ data, cache.lookup vggface_weights_path = none →
      net RESNET50_WEIGHTS_PATH_NO_TOP = NetResult.ok data →
      gan_identity_loss_fetch net false cache
        = Except.error DownloadError.cache_write_error) := by
  refine ⟨?_, ?_, ?_, ?_⟩
  · intro data hc hnet
    have hc2 : List.lookup
        "models/vggface/rcmalli_vggface_tf_notop_resnet50.h5" cache
          = none := hc
    simp [gan_identity_loss_fetch, get_file, vggface_weights_path,
      VGGFACE_DIR, hc2, hnet]
  · intro data write_ok hc
    have hc2 : List.lookup
        "models/vggface/rcmalli_vggface_tf_notop_resnet50.h5" cache
          = some data := hc
    simp [gan_identity_loss_fetch, get_file, vggface_weights_path,
      VGGFACE_DIR, hc2]
  · intro write_ok hc hnet
    have hc2 : List.lookup
        "models/vggface/rcmalli_vggface_tf_notop_resnet50.h5" cache
          = none := hc
    simp [gan_identity_loss_fetch, get_file, vggface_weights_path,
      VGGFACE_DIR, hc2, hnet]
  · intro data hc hnet
    have hc2 : List.lookup
        "models/vggface/rcmalli_vggface_tf_notop_resnet50.h5" cache
          = none := hc
    simp [gan_identity_loss_fetch, get_file, vggface_weights_path,
      VGGFACE_DIR, hc2, hnet]

/-- Claim C8 witness: on an empty cache with a working network and writable
cache, the fetch downloads the file to `models/vggface`. -/
theorem gan_identity_loss_download_witness :
    gan_identity_loss_fetch (fun _ => NetResult.ok 7) true []
      = Except.ok
        { path := vggface_weights_path
          cache := [(vggface_weights_path, 7)]
          downloaded := true } :=
  (gan_identity_loss_download_first_use (fun _ => NetResult.ok 7) []).1 7
    rfl rfl

/-- A once-callback that has already fired never executes again, whatever
events follow. -/
theorem once_fire_trace_fired (cb_loc : CallbackLoc)
    (ls : List CallbackLoc) :
    once_fire_trace cb_loc ls true = List.replicate ls.length false := by
  induction ls with
  | nil => rfl
  | cons l rest ih => simp [once_fire_trace, ih, List.replicate_succ]

/-- A training run of `n` steps has `2n + 1` events after `train_start`. -/
theorem step_locs_length (n : ℕ) : (step_locs n).length = 2 * n + 1 := by
  induction n with
  | zero => rfl
  | succ k ih =>
      simp [step_locs, ih]
      ring

/-- Claim C9: `IdentityModelRestorer` is registered at
`CallbackLoc.train_start` as a once-callback, so over any training run of any
number of steps its restore action executes exactly at the initial
`train_start` event and never again after training has started: its firing
trace is `true` followed by `false` at every later event. -/
theorem identity_model_restorer_once_per_run (model_weights : List String)
    (tf_checkpoint_path : String) (num_steps : ℕ) :
    ((IdentityModelRestorer.init model_weights tf_checkpoint_path).cb_loc
        = CallbackLoc.train_start) ∧
    (once_fire_trace
        (IdentityModelRestorer.init model_weights tf_checkpoint_path).cb_loc
        (train_run_locs num_steps) false
      = true :: List.replicate (2 * num_steps + 1) false) := by
  refine ⟨rfl, ?_⟩
  show once_fire_trace CallbackLoc.train_start
    (CallbackLoc.train_start :: step_locs num_steps) false = _
  rw [once_fire_trace]
  simp [once_fire_trace_fired, step_locs_length]

end NeuralGym
